import Mathlib

/-!
Shallow embedding of the generation/judging orchestration layer of the
email-editing tool (`src/generate.py`), together with proofs about it.

The embedding mirrors the Python module `generate.py`:

* the prompt template store (`prompts[name][type]` plus `str.format`) becomes
  `get_prompt` over association lists of parsed templates;
* the external chat-completion exchange becomes a function
  `Model : List Message → Except ApiError String`, and the wrapper
  `_call_api` mirrors the catch-all `try/except` of the source;
* the class methods `send_prompt`, `judge` and `generate` become functions
  threading the template set and the exchange explicitly;
* every function that can perform an exchange also returns the list of
  diagnostic log lines it printed and the list of message sequences it
  dispatched, so that call counts and logging are provable facts.

Machine-level details that the claims do not touch (HTTP transport, YAML
loading) stay abstract: templates enter the model already parsed into the
literal/placeholder fragments that Python's `str.format` works on.
-/

set_option autoImplicit false

namespace EmailGen

/-! ## Values passed to `str.format`

The orchestrator only ever passes strings and `None` as format arguments
(`selected_text`, `model_response`, `tone`).  Python's `str.format` converts a
non-string value with `str`, so `None` renders as the text `"None"`. -/

inductive PyVal where
  | str (s : String)
  | pyNone
deriving Repr, DecidableEq

def PyVal.toStr : PyVal → String
  | .str s => s
  | .pyNone => "None"

/-! ## Templates

A template, as `str.format` sees it, is a sequence of literal fragments and
named placeholders.  `prompts.yaml` is external configuration, so templates
enter the embedding in this already-parsed form. -/

inductive Frag where
  | lit (text : String)
  | hole (name : String)
deriving Repr, DecidableEq

abbrev Template := List Frag

/-- The placeholder names a template references, in order of appearance. -/
def Template.holes : Template → List String
  | [] => []
  | .lit _ :: rest => Template.holes rest
  | .hole n :: rest => n :: Template.holes rest

abbrev Kwargs := List (String × PyVal)

/-- The two error conditions of prompt resolution.  Both are raised as
`KeyError` in Python; the constructors record which condition fired: a failed
dictionary lookup (`prompts[prompt_name][prompt_type]`, line 110) or a
placeholder that `template.format(**kwargs)` cannot fill (line 111). -/
inductive PromptError where
  | templateNotFound (prompt_name prompt_type : String)
  | missingPlaceholder (name : String)
deriving Repr, DecidableEq

/-- `template.format(**kwargs)`: substitute every placeholder left to right,
raising on the first placeholder that `kwargs` does not cover.  Python's
`format` builds the whole result before returning, so a missing key yields an
error and no string at all. -/
def formatTemplate : Template → Kwargs → Except PromptError String
  | [], _ => .ok ""
  | .lit s :: rest, kwargs => (formatTemplate rest kwargs).map (fun r => s ++ r)
  | .hole n :: rest, kwargs =>
    match kwargs.lookup n with
    | some v => (formatTemplate rest kwargs).map (fun r => v.toStr ++ r)
    | none => .error (.missingPlaceholder n)

/-- Total rendering used to state what `formatTemplate` returns on success:
every placeholder replaced by the string conversion of its value. -/
def renderFull : Template → Kwargs → String
  | [], _ => ""
  | .lit s :: rest, kwargs => s ++ renderFull rest kwargs
  | .hole n :: rest, kwargs => (((kwargs.lookup n).getD .pyNone).toStr) ++ renderFull rest kwargs

/-- The loaded template set: operation name → prompt type → template,
mirroring the nested dictionaries produced by `yaml.safe_load`. -/
abbrev PromptSet := List (String × List (String × Template))

/-- `GenerateEmail.get_prompt` (lines 93-111): look up
`prompts[prompt_name][prompt_type]` and format it with the keyword
arguments. -/
def get_prompt (prompts : PromptSet) (prompt_name prompt_type : String)
    (kwargs : Kwargs) : Except PromptError String :=
  match prompts.lookup prompt_name with
  | none => .error (.templateNotFound prompt_name prompt_type)
  | some entry =>
    match entry.lookup prompt_type with
    | none => .error (.templateNotFound prompt_name prompt_type)
    | some template => formatTemplate template kwargs

/-! ## The external model exchange -/

structure Message where
  role : String
  content : String
deriving Repr, DecidableEq

/-- The ways the external chat-completion exchange can fail: transport and
service failures as well as a response missing the expected fields (in the
source, indexing `response.choices[0].message.content` raising). -/
inductive ApiError where
  | timeout
  | authentication
  | malformedResponse
  | rateLimit
  | network
  | other (msg : String)
deriving Repr, DecidableEq

def ApiError.msg : ApiError → String
  | .timeout => "timeout"
  | .authentication => "authentication"
  | .malformedResponse => "malformed response"
  | .rateLimit => "rate limit"
  | .network => "network error"
  | .other m => m

/-- The external chat-completion capability: an ordered message sequence in, a
single text completion out, or a failure. -/
def Model := List Message → Except ApiError String

/-- Result of running an orchestrator method: its return value, the diagnostic
lines it printed, and the message sequences it dispatched to the external
model (one entry per exchange). -/
structure CallOut (α : Type) where
  result : α
  logs : List String
  calls : List (List Message)
deriving Repr

/-- `GenerateEmail._call_api` (lines 63-91): perform the exchange; any failure
is caught, logged as a diagnostic, and converted to `None`. -/
def _call_api (client : Model) (messages : List Message) : CallOut (Option String) :=
  match client messages with
  | .ok text => ⟨some text, [], [messages]⟩
  | .error e => ⟨none, ["API Error: " ++ e.msg], [messages]⟩

/-- `GenerateEmail.send_prompt` (lines 113-130): wrap the system and user
prompts as an ordered two-message exchange and call the API. -/
def send_prompt (client : Model) (user_prompt system_msg : String) :
    CallOut (Option String) :=
  _call_api client [⟨"system", system_msg⟩, ⟨"user", user_prompt⟩]

/-! ## JSON values and parsing

`judge` feeds the model's raw text to `json.loads`.  The embedding carries an
executable parser for the JSON fragment the orchestrator actually meets:
`null`, booleans, integers, strings with the simple escapes, arrays and
objects, with the usual whitespace.  (Floats and `\u` escapes are outside the
fragment; the theorems either take the parse outcome as a hypothesis or
evaluate the parser on inputs inside the fragment.) -/

inductive Json where
  | null
  | bool (b : Bool)
  | num (n : Int)
  | str (s : String)
  | arr (elems : List Json)
  | obj (fields : List (String × Json))
deriving Repr

def isJsonWs (c : Char) : Bool :=
  c = ' ' || c = '\n' || c = '\t' || c = '\r'

def skipWs : List Char → List Char
  | [] => []
  | c :: cs => if isJsonWs c then skipWs cs else c :: cs

/-- Parse the body of a JSON string literal (the opening quote already
consumed), returning the decoded characters and the rest of the input. -/
def parseStrChars : List Char → Option (List Char × List Char)
  | [] => none
  | c :: cs =>
    if c = '"' then some ([], cs)
    else if c = '\\' then
      match cs with
      | [] => none
      | e :: cs2 =>
        let dec : Option Char :=
          if e = '"' then some '"'
          else if e = '\\' then some '\\'
          else if e = '/' then some '/'
          else if e = 'n' then some '\n'
          else if e = 't' then some '\t'
          else if e = 'r' then some '\r'
          else none
        match dec with
        | none => none
        | some d =>
          match parseStrChars cs2 with
          | none => none
          | some (body, rest) => some (d :: body, rest)
    else
      match parseStrChars cs with
      | none => none
      | some (body, rest) => some (c :: body, rest)

/-- Parse a JSON integer: optional minus sign, then one or more digits, not
followed by a fraction or exponent. -/
def parseIntChars (cs : List Char) : Option (Int × List Char) :=
  let signed := cs.head? = some '-'
  let cs1 := if signed then cs.tail else cs
  let digits := cs1.takeWhile Char.isDigit
  let rest := cs1.dropWhile Char.isDigit
  if digits.isEmpty then none
  else if rest.head? = some '.' || rest.head? = some 'e' || rest.head? = some 'E' then none
  else
    let n : Nat := digits.foldl (fun acc c => 10 * acc + (c.toNat - 48)) 0
    some (if signed then -(n : Int) else (n : Int), rest)

mutual

/-- Parse one JSON value, leading whitespace allowed. -/
def parseVal : Nat → List Char → Option (Json × List Char)
  | 0, _ => none
  | fuel + 1, cs =>
    match skipWs cs with
    | 'n' :: 'u' :: 'l' :: 'l' :: rest => some (.null, rest)
    | 't' :: 'r' :: 'u' :: 'e' :: rest => some (.bool true, rest)
    | 'f' :: 'a' :: 'l' :: 's' :: 'e' :: rest => some (.bool false, rest)
    | c :: rest =>
      if c = '"' then
        match parseStrChars rest with
        | none => none
        | some (body, rest2) => some (.str (String.mk body), rest2)
      else if c = '[' then
        match skipWs rest with
        | ']' :: rest2 => some (.arr [], rest2)
        | _ =>
          match parseElems fuel rest with
          | none => none
          | some (elems, rest2) => some (.arr elems, rest2)
      else if c = '{' then
        match skipWs rest with
        | '}' :: rest2 => some (.obj [], rest2)
        | _ =>
          match parseMembers fuel rest with
          | none => none
          | some (fields, rest2) => some (.obj fields, rest2)
      else if c = '-' || c.isDigit then
        match parseIntChars (c :: rest) with
        | none => none
        | some (n, rest2) => some (.num n, rest2)
      else none
    | [] => none

/-- Parse a comma-separated nonempty list of values followed by `]`. -/
def parseElems : Nat → List Char → Option (List Json × List Char)
  | 0, _ => none
  | fuel + 1, cs =>
    match parseVal fuel cs with
    | none => none
    | some (v, rest) =>
      match skipWs rest with
      | ',' :: rest2 =>
        match parseElems fuel rest2 with
        | none => none
        | some (vs, rest3) => some (v :: vs, rest3)
      | ']' :: rest2 => some ([v], rest2)
      | _ => none

/-- Parse a comma-separated nonempty list of `"key": value` members followed
by `}`. -/
def parseMembers : Nat → List Char → Option (List (String × Json) × List Char)
  | 0, _ => none
  | fuel + 1, cs =>
    match skipWs cs with
    | '"' :: rest =>
      match parseStrChars rest with
      | none => none
      | some (key, rest2) =>
        match skipWs rest2 with
        | ':' :: rest3 =>
          match parseVal fuel rest3 with
          | none => none
          | some (v, rest4) =>
            match skipWs rest4 with
            | ',' :: rest5 =>
              match parseMembers fuel rest5 with
              | none => none
              | some (fields, rest6) => some ((String.mk key, v) :: fields, rest6)
            | '}' :: rest5 => some ([(String.mk key, v)], rest5)
            | _ => none
        | _ => none
    | _ => none

end

/-- `json.loads` on the embedded fragment: parse one value and require only
whitespace after it. -/
def json_loads (s : String) : Option Json :=
  let cs := s.toList
  match parseVal (2 * cs.length + 2) cs with
  | none => none
  | some (v, rest) => if (skipWs rest).isEmpty then some v else none

/-! ## Judging -/

/-- The errors `judge` can raise: the `ValueError("Unsupported metric: ...")`
of lines 149-150, or an uncaught `KeyError` escaping `get_prompt`. -/
inductive JudgeError where
  | unsupportedMetric (metric : String)
  | prompt (e : PromptError)
deriving Repr, DecidableEq

/-- What `judge` returns when it does not raise: `None` on exchange failure,
the parsed JSON value when `json.loads` succeeds, the raw text otherwise. -/
inductive JudgeResult where
  | absent
  | parsed (value : Json)
  | raw (text : String)
deriving Repr

/-- The `metric_map` dictionary of lines 143-147. -/
def metric_map : List (String × String) :=
  [("faithfulness", "faithfulness_judge"),
   ("completeness", "completeness_judge"),
   ("conciseness", "conciseness_judge")]

/-- `GenerateEmail.judge` (lines 132-164): map the metric to its judge prompt
name (unsupported metric raises), render the system and user prompts with the
original and edited texts, run one exchange, and interpret the raw reply. -/
def judge (prompts : PromptSet) (client : Model)
    (metric original_text edited_text : String) :
    Except JudgeError (CallOut JudgeResult) :=
  match metric_map.lookup metric with
  | none => .error (.unsupportedMetric metric)
  | some prompt_name =>
    let args : Kwargs :=
      [("selected_text", .str original_text), ("model_response", .str edited_text)]
    match get_prompt prompts prompt_name "system" args with
    | .error e => .error (.prompt e)
    | .ok system_prompt =>
      match get_prompt prompts prompt_name "user" args with
      | .error e => .error (.prompt e)
      | .ok user_prompt =>
        let out := send_prompt client user_prompt system_prompt
        match out.result with
        | none => .ok ⟨.absent, out.logs, out.calls⟩
        | some raw =>
          match json_loads raw with
          | some v => .ok ⟨.parsed v, out.logs, out.calls⟩
          | none => .ok ⟨.raw raw, out.logs, out.calls⟩

/-! ## Generation -/

/-- How the optional `tone: str = None` parameter enters the format
arguments. -/
def pyOfOption : Option String → PyVal
  | some s => .str s
  | none => .pyNone

/-- The format arguments `generate` assembles for an action: always
`selected_text`, with `tone` added in the tone branch (lines 190 and 208). -/
def genArgs (action email_content : String) (tone : Option String) : Kwargs :=
  if action = "tone" then
    [("selected_text", .str email_content), ("tone", pyOfOption tone)]
  else
    [("selected_text", .str email_content)]

/-- `GenerateEmail.generate` (lines 166-216): dispatch on the action, render
the system and user prompts, run one exchange and return its raw text; an
unknown action prints a diagnostic and returns `None` without an exchange.
`KeyError` from `get_prompt` is not caught and propagates. -/
def generate (prompts : PromptSet) (client : Model)
    (action email_content : String) (tone : Option String) :
    Except PromptError (CallOut (Option String)) :=
  let args := genArgs action email_content tone
  if action = "shorten" || action = "lengthen" || action = "tone" then
    match get_prompt prompts action "system" args with
    | .error e => .error e
    | .ok system_prompt =>
      match get_prompt prompts action "user" args with
      | .error e => .error e
      | .ok user_prompt => .ok (send_prompt client user_prompt system_prompt)
  else
    .ok ⟨none, ["Unknown action: " ++ action], []⟩

/-! ## Construction

`GenerateEmail.__init__` (lines 46-61) builds an `openai.OpenAI` client from
`os.getenv("OPENAI_API_BASE")` and `os.getenv("OPENAI_API_KEY")`.  The SDK
constructor is external code; `OpenAI_mk` models its documented behaviour:
a missing api key (no argument and no `OPENAI_API_KEY` in the environment)
raises `OpenAIError`, while a missing base url silently falls back to the
`OPENAI_BASE_URL` environment variable and then to the default public
endpoint. -/

abbrev Env := List (String × String)

structure OpenAIClient where
  base_url : String
  api_key : String
deriving Repr, DecidableEq

def defaultBaseUrl : String := "https://api.openai.com/v1"

/-- Models `openai.OpenAI.__init__` restricted to the two options the
repository passes. -/
def OpenAI_mk (env : Env) (base_url api_key : Option String) :
    Except String OpenAIClient :=
  match api_key.orElse (fun _ => env.lookup "OPENAI_API_KEY") with
  | none => .error "The api_key client option must be set"
  | some key =>
    .ok ⟨(base_url.orElse (fun _ => env.lookup "OPENAI_BASE_URL")).getD defaultBaseUrl, key⟩

structure GenerateEmailState where
  client : OpenAIClient
  deployment_name : String
deriving Repr, DecidableEq

/-- `GenerateEmail.__init__`: pass the two environment values straight to the
SDK constructor and record the deployment name.  No validation of its own. -/
def GenerateEmail_init (env : Env) (model : String) :
    Except String GenerateEmailState :=
  match OpenAI_mk env (env.lookup "OPENAI_API_BASE") (env.lookup "OPENAI_API_KEY") with
  | .error e => .error e
  | .ok client => .ok ⟨client, model⟩

/-! ## General lemmas about template formatting -/

theorem formatTemplate_ok (t : Template) (kwargs : Kwargs)
    (hcov : ∀ n ∈ Template.holes t, (kwargs.lookup n).isSome) :
    formatTemplate t kwargs = .ok (renderFull t kwargs) := by
  induction t with
  | nil => rfl
  | cons f rest ih =>
    cases f with
    | lit s =>
      have hrest := ih (fun n hn => hcov n (by simpa [Template.holes] using hn))
      simp [formatTemplate, renderFull, hrest, Except.map]
    | hole n =>
      have hn : (kwargs.lookup n).isSome := hcov n (by simp [Template.holes])
      obtain ⟨v, hv⟩ := Option.isSome_iff_exists.mp hn
      have hrest := ih (fun m hm => hcov m (by simp [Template.holes, hm]))
      simp [formatTemplate, renderFull, hv, hrest, Except.map]

theorem formatTemplate_missing (t : Template) (kwargs : Kwargs)
    (hmiss : ∃ n ∈ Template.holes t, kwargs.lookup n = none) :
    ∃ n, n ∈ Template.holes t ∧ kwargs.lookup n = none ∧
      formatTemplate t kwargs = .error (.missingPlaceholder n) := by
  induction t with
  | nil => simp [Template.holes] at hmiss
  | cons f rest ih =>
    cases f with
    | lit s =>
      have hmiss2 : ∃ n ∈ Template.holes rest, kwargs.lookup n = none := by
        simpa [Template.holes] using hmiss
      obtain ⟨m, hm1, hm2, hm3⟩ := ih hmiss2
      exact ⟨m, by simpa [Template.holes] using hm1, hm2,
        by simp [formatTemplate, hm3, Except.map]⟩
    | hole n0 =>
      cases h0 : kwargs.lookup n0 with
      | none =>
        exact ⟨n0, by simp [Template.holes], h0, by simp [formatTemplate, h0]⟩
      | some v =>
        have hmiss2 : ∃ n ∈ Template.holes rest, kwargs.lookup n = none := by
          obtain ⟨m, hm1, hm2⟩ := hmiss
          rcases (by simpa [Template.holes] using hm1 : m = n0 ∨ m ∈ Template.holes rest) with
            heq | hmem
          · rw [heq] at hm2; rw [hm2] at h0; cases h0
          · exact ⟨m, hmem, hm2⟩
        obtain ⟨m, hm1, hm2, hm3⟩ := ih hmiss2
        exact ⟨m, by simp [Template.holes, hm1], hm2,
          by simp [formatTemplate, h0, hm3, Except.map]⟩

theorem renderFull_decomp (t : Template) (kwargs : Kwargs) (n : String)
    (h : Frag.hole n ∈ t) :
    ∃ pre post, renderFull t kwargs =
      pre ++ ((kwargs.lookup n).getD .pyNone).toStr ++ post := by
  induction t with
  | nil => cases h
  | cons f rest ih =>
    rcases List.mem_cons.mp h with heq | hmem
    · refine ⟨"", renderFull rest kwargs, ?_⟩
      rw [← heq]
      simp [renderFull]
    · obtain ⟨pre, post, hpp⟩ := ih hmem
      cases f with
      | lit s =>
        exact ⟨s ++ pre, post, by simp [renderFull, hpp, String.append_assoc]⟩
      | hole m =>
        exact ⟨((kwargs.lookup m).getD .pyNone).toStr ++ pre, post,
          by simp [renderFull, hpp, String.append_assoc]⟩

theorem renderFull_no_brace (t : Template) (kwargs : Kwargs)
    (hlit : ∀ s, Frag.lit s ∈ t → '\x7b' ∉ s.data)
    (hval : ∀ n v, kwargs.lookup n = some v → '\x7b' ∉ v.toStr.data) :
    '\x7b' ∉ (renderFull t kwargs).data := by
  induction t with
  | nil => simp [renderFull]
  | cons f rest ih =>
    have hrest := ih (fun s hs => hlit s (List.mem_cons_of_mem _ hs))
    cases f with
    | lit s =>
      have hs := hlit s (List.mem_cons_self _ _)
      simp only [renderFull, String.data_append, List.mem_append]
      exact fun h => h.elim (fun h1 => hs h1) (fun h2 => hrest h2)
    | hole n =>
      have hhead : '\x7b' ∉ (((kwargs.lookup n).getD .pyNone).toStr).data := by
        cases hl : kwargs.lookup n with
        | none => simp only [Option.getD]; decide
        | some v => simpa using hval n v hl
      simp only [renderFull, String.data_append, List.mem_append]
      exact fun h => h.elim (fun h1 => hhead h1) (fun h2 => hrest h2)

theorem no_brace_lookup (kwargs : Kwargs)
    (h : ∀ p ∈ kwargs, '\x7b' ∉ p.2.toStr.data) :
    ∀ n v, kwargs.lookup n = some v → '\x7b' ∉ v.toStr.data := by
  induction kwargs with
  | nil => intro n v hl; cases hl
  | cons p rest ih =>
    intro n v hl
    rcases p with ⟨k, w⟩
    cases hk : n == k with
    | true =>
      have hw : w = v := by simpa [List.lookup, hk] using hl
      exact hw ▸ h (k, w) (List.mem_cons_self _ _)
    | false =>
      have hl2 : rest.lookup n = some v := by simpa [List.lookup, hk] using hl
      exact ih (fun q hq => h q (List.mem_cons_of_mem _ hq)) n v hl2

/-! ## A concrete template set for instantiating the theorems -/

/-- A small template set of the shape `prompts.yaml` provides: each operation
with a `system` and a `user` template over the documented placeholders. -/
def samplePrompts : PromptSet :=
  [("shorten",
     [("system", [.lit "You shorten emails."]),
      ("user", [.lit "Shorten this email: ", .hole "selected_text"])]),
   ("lengthen",
     [("system", [.lit "You expand emails."]),
      ("user", [.lit "Lengthen this email: ", .hole "selected_text"])]),
   ("tone",
     [("system", [.lit "You rewrite emails in a ", .hole "tone", .lit " tone."]),
      ("user", [.lit "Rewrite this email: ", .hole "selected_text",
                .lit " Use a ", .hole "tone", .lit " tone."])]),
   ("faithfulness_judge",
     [("system", [.lit "You judge faithfulness."]),
      ("user", [.lit "Original: ", .hole "selected_text",
                .lit " Edited: ", .hole "model_response"])]),
   ("completeness_judge",
     [("system", [.lit "You judge completeness."]),
      ("user", [.lit "Original: ", .hole "selected_text",
                .lit " Edited: ", .hole "model_response"])]),
   ("conciseness_judge",
     [("system", [.lit "You judge conciseness."]),
      ("user", [.lit "Original: ", .hole "selected_text",
                .lit " Edited: ", .hole "model_response"])])]

/-! ## The claims -/

/-- C5: resolving an operation name or role absent from the loaded template
set signals `TemplateNotFoundError` and returns no string (in particular no
partially-filled one); resolving with a value mapping that misses a referenced
placeholder signals `MissingPlaceholderError` and returns no string. -/
theorem C5_resolution_errors (prompts : PromptSet) (name role : String)
    (kwargs : Kwargs) :
    ((prompts.lookup name = none ∨
        (∃ entry, prompts.lookup name = some entry ∧ entry.lookup role = none)) →
      get_prompt prompts name role kwargs = .error (.templateNotFound name role)) ∧
    (∀ entry t, prompts.lookup name = some entry → entry.lookup role = some t →
      (∃ n ∈ Template.holes t, kwargs.lookup n = none) →
      ∃ n, n ∈ Template.holes t ∧ kwargs.lookup n = none ∧
        get_prompt prompts name role kwargs = .error (.missingPlaceholder n)) := by
  constructor
  · rintro (h | ⟨entry, h1, h2⟩)
    · simp [get_prompt, h]
    · simp [get_prompt, h1, h2]
  · intro entry t h1 h2 hmiss
    obtain ⟨n, hn1, hn2, hn3⟩ := formatTemplate_missing t kwargs hmiss
    exact ⟨n, hn1, hn2, by simp [get_prompt, h1, h2, hn3]⟩

theorem C5_witness :
    get_prompt samplePrompts "missing_op" "user" [] =
      .error (.templateNotFound "missing_op" "user") ∧
    (∃ n, n ∈ Template.holes [Frag.lit "Shorten this email: ", Frag.hole "selected_text"] ∧
      ([] : Kwargs).lookup n = none ∧
      get_prompt samplePrompts "shorten" "user" [] = .error (.missingPlaceholder n)) :=
  ⟨(C5_resolution_errors samplePrompts "missing_op" "user" []).1 (Or.inl rfl),
   (C5_resolution_errors samplePrompts "shorten" "user" []).2 _ _ rfl rfl
     ⟨"selected_text", by decide, rfl⟩⟩

/-- C6: resolving a valid operation name and role with a value mapping that
covers every referenced placeholder returns the template with each placeholder
replaced by the string conversion of its value, and the result carries no
unsubstituted placeholder marker (no brace appears unless the literals or the
values themselves contained one). -/
theorem C6_resolution_complete (prompts : PromptSet) (name role : String)
    (kwargs : Kwargs) (entry : List (String × Template)) (t : Template)
    (h1 : prompts.lookup name = some entry) (h2 : entry.lookup role = some t)
    (hcov : ∀ n ∈ Template.holes t, (kwargs.lookup n).isSome) :
    get_prompt prompts name role kwargs = .ok (renderFull t kwargs) ∧
    ((∀ s, Frag.lit s ∈ t → '\x7b' ∉ s.data) →
      (∀ n v, kwargs.lookup n = some v → '\x7b' ∉ v.toStr.data) →
      '\x7b' ∉ (renderFull t kwargs).data) := by
  refine ⟨?_, fun hlit hval => renderFull_no_brace t kwargs hlit hval⟩
  simp [get_prompt, h1, h2, formatTemplate_ok t kwargs hcov]

theorem C6_witness :
    get_prompt samplePrompts "shorten" "user" [("selected_text", PyVal.str "Hi")] =
      .ok (renderFull [Frag.lit "Shorten this email: ", Frag.hole "selected_text"]
            [("selected_text", PyVal.str "Hi")]) ∧
    '\x7b' ∉ (renderFull [Frag.lit "Shorten this email: ", Frag.hole "selected_text"]
            [("selected_text", PyVal.str "Hi")]).data := by
  have h := C6_resolution_complete samplePrompts "shorten" "user"
    [("selected_text", PyVal.str "Hi")] _ _ rfl rfl (by decide)
  exact ⟨h.1, h.2 (by intro s hs; simp [List.mem_cons] at hs; subst hs; decide)
    (no_brace_lookup [("selected_text", PyVal.str "Hi")] (by decide))⟩

/-- For a supported action, `generate` is template resolution followed by one
`send_prompt` exchange. -/
theorem generate_eq (prompts : PromptSet) (client : Model)
    (action text : String) (tone : Option String)
    (ha : action = "shorten" ∨ action = "lengthen" ∨ action = "tone") :
    generate prompts client action text tone =
      match get_prompt prompts action "system" (genArgs action text tone) with
      | .error e => .error e
      | .ok system_prompt =>
        match get_prompt prompts action "user" (genArgs action text tone) with
        | .error e => .error e
        | .ok user_prompt => .ok (send_prompt client user_prompt system_prompt) := by
  rcases ha with h | h | h <;> subst h <;> rfl

/-- For an unsupported action, `generate` logs and returns `None`. -/
theorem generate_unknown_eq (prompts : PromptSet) (client : Model)
    (action text : String) (tone : Option String)
    (ha1 : action ≠ "shorten") (ha2 : action ≠ "lengthen") (ha3 : action ≠ "tone") :
    generate prompts client action text tone =
      .ok ⟨none, ["Unknown action: " ++ action], []⟩ := by
  simp [generate, ha1, ha2, ha3]

/-- For a supported metric, `judge` is template resolution, one exchange, and
interpretation of the raw reply. -/
theorem judge_eq (prompts : PromptSet) (client : Model)
    (metric o c pn : String)
    (hm : metric_map.lookup metric = some pn) :
    judge prompts client metric o c =
      match get_prompt prompts pn "system"
          [("selected_text", .str o), ("model_response", .str c)] with
      | .error e => .error (.prompt e)
      | .ok system_prompt =>
        match get_prompt prompts pn "user"
            [("selected_text", .str o), ("model_response", .str c)] with
        | .error e => .error (.prompt e)
        | .ok user_prompt =>
          match (send_prompt client user_prompt system_prompt).result with
          | none => .ok ⟨.absent, (send_prompt client user_prompt system_prompt).logs,
              (send_prompt client user_prompt system_prompt).calls⟩
          | some raw =>
            match json_loads raw with
            | some v => .ok ⟨.parsed v, (send_prompt client user_prompt system_prompt).logs,
                (send_prompt client user_prompt system_prompt).calls⟩
            | none => .ok ⟨.raw raw, (send_prompt client user_prompt system_prompt).logs,
                (send_prompt client user_prompt system_prompt).calls⟩ := by
  simp [judge, hm]

/-- C2: an action outside `shorten`/`lengthen`/`tone` makes `generate` log
the condition and return `None`, signalling no error and performing no
exchange; a metric outside `faithfulness`/`completeness`/`conciseness` makes
`judge` signal the unsupported-metric error directly. -/
theorem C2_unknown_action_metric (prompts : PromptSet) (client : Model)
    (action text : String) (tone : Option String) (metric o c : String)
    (ha : action ∉ ["shorten", "lengthen", "tone"])
    (hm : metric ∉ ["faithfulness", "completeness", "conciseness"]) :
    generate prompts client action text tone =
      .ok ⟨none, ["Unknown action: " ++ action], []⟩ ∧
    judge prompts client metric o c = .error (.unsupportedMetric metric) := by
  have ha1 : action ≠ "shorten" := fun h => ha (by simp [h])
  have ha2 : action ≠ "lengthen" := fun h => ha (by simp [h])
  have ha3 : action ≠ "tone" := fun h => ha (by simp [h])
  have hm1 : metric ≠ "faithfulness" := fun h => hm (by simp [h])
  have hm2 : metric ≠ "completeness" := fun h => hm (by simp [h])
  have hm3 : metric ≠ "conciseness" := fun h => hm (by simp [h])
  have hb1 : (metric == "faithfulness") = false := by simp [hm1]
  have hb2 : (metric == "completeness") = false := by simp [hm2]
  have hb3 : (metric == "conciseness") = false := by simp [hm3]
  constructor
  · simp [generate, ha1, ha2, ha3]
  · simp [judge, metric_map, List.lookup, hb1, hb2, hb3]

theorem C2_witness :
    generate samplePrompts (fun _ => .error .network) "summarize" "text" none =
      .ok ⟨none, ["Unknown action: " ++ "summarize"], []⟩ ∧
    judge samplePrompts (fun _ => .error .network) "helpfulness" "a" "b" =
      .error (.unsupportedMetric "helpfulness") :=
  C2_unknown_action_metric samplePrompts (fun _ => .error .network)
    "summarize" "text" none "helpfulness" "a" "b" (by decide) (by decide)

/-- C4: for a supported action whose templates resolve and an exchange that
succeeds, `generate` dispatches exactly one external call, whose message
sequence is the rendered system message then the rendered user message, and
returns the model's text verbatim. -/
theorem C4_single_exchange (prompts : PromptSet) (client : Model)
    (action text : String) (tone : Option String) (sp up reply : String)
    (ha : action = "shorten" ∨ action = "lengthen" ∨ action = "tone")
    (hs : get_prompt prompts action "system" (genArgs action text tone) = .ok sp)
    (hu : get_prompt prompts action "user" (genArgs action text tone) = .ok up)
    (hr : client [⟨"system", sp⟩, ⟨"user", up⟩] = .ok reply) :
    generate prompts client action text tone =
      .ok ⟨some reply, [], [[⟨"system", sp⟩, ⟨"user", up⟩]]⟩ := by
  rcases ha with h | h | h <;> subst h <;>
    simp [generate, hs, hu, send_prompt, _call_api, hr]

theorem C4_witness :
    generate samplePrompts (fun _ => .ok "Checking in on meeting notes.")
      "shorten" "Hi, just checking in on the meeting notes." none =
      .ok ⟨some "Checking in on meeting notes.", [],
        [[⟨"system", "You shorten emails."⟩,
          ⟨"user", "Shorten this email: Hi, just checking in on the meeting notes."⟩]]⟩ :=
  C4_single_exchange samplePrompts (fun _ => .ok "Checking in on meeting notes.")
    "shorten" "Hi, just checking in on the meeting notes." none
    "You shorten emails."
    "Shorten this email: Hi, just checking in on the meeting notes."
    "Checking in on meeting notes."
    (Or.inl rfl) rfl rfl rfl

/-- C1: every exchange failure is caught by the call wrapper `_call_api`,
which logs one diagnostic and returns `None`.  Under a failing exchange,
`generate` and `judge` still return normally (`None` respectively absent),
and any error either of them signals is a template-resolution or
unsupported-metric condition determined before the exchange — the exchange
fault itself is never propagated to their caller. -/
theorem C1_exchange_failure_absorbed (client : Model) (e : ApiError)
    (hfail : ∀ msgs, client msgs = .error e) :
    (∀ msgs, _call_api client msgs = ⟨none, ["API Error: " ++ e.msg], [msgs]⟩) ∧
    (∀ prompts action text tone out,
      generate prompts client action text tone = .ok out → out.result = none) ∧
    (∀ prompts action text tone pe,
      generate prompts client action text tone = .error pe →
      get_prompt prompts action "system" (genArgs action text tone) = .error pe ∨
      get_prompt prompts action "user" (genArgs action text tone) = .error pe) ∧
    (∀ prompts metric o c out,
      judge prompts client metric o c = .ok out → out.result = .absent) ∧
    (∀ prompts metric o c je,
      judge prompts client metric o c = .error je →
      je = .unsupportedMetric metric ∨
      ∃ pn pe, metric_map.lookup metric = some pn ∧ je = .prompt pe ∧
        (get_prompt prompts pn "system"
            [("selected_text", .str o), ("model_response", .str c)] = .error pe ∨
         get_prompt prompts pn "user"
            [("selected_text", .str o), ("model_response", .str c)] = .error pe)) := by
  refine ⟨fun msgs => by simp [_call_api, hfail msgs], ?_, ?_, ?_, ?_⟩
  · intro prompts action text tone out h
    by_cases ha : action = "shorten" ∨ action = "lengthen" ∨ action = "tone"
    · rw [generate_eq prompts client action text tone ha] at h
      cases hsys : get_prompt prompts action "system" (genArgs action text tone) with
      | error e2 => rw [hsys] at h; exact Except.noConfusion h
      | ok sp =>
        rw [hsys] at h
        cases husr : get_prompt prompts action "user" (genArgs action text tone) with
        | error e2 => rw [husr] at h; exact Except.noConfusion h
        | ok up =>
          rw [husr] at h
          have hout := Except.ok.inj h
          rw [← hout]
          simp [send_prompt, _call_api, hfail]
    · push_neg at ha
      rw [generate_unknown_eq prompts client action text tone ha.1 ha.2.1 ha.2.2] at h
      have hout := Except.ok.inj h
      rw [← hout]
  · intro prompts action text tone pe h
    by_cases ha : action = "shorten" ∨ action = "lengthen" ∨ action = "tone"
    · rw [generate_eq prompts client action text tone ha] at h
      cases hsys : get_prompt prompts action "system" (genArgs action text tone) with
      | error e2 =>
        rw [hsys] at h
        exact Or.inl (congrArg Except.error (Except.error.inj h))
      | ok sp =>
        rw [hsys] at h
        cases husr : get_prompt prompts action "user" (genArgs action text tone) with
        | error e2 =>
          rw [husr] at h
          exact Or.inr (congrArg Except.error (Except.error.inj h))
        | ok up => rw [husr] at h; exact Except.noConfusion h
    · push_neg at ha
      rw [generate_unknown_eq prompts client action text tone ha.1 ha.2.1 ha.2.2] at h
      exact Except.noConfusion h
  · intro prompts metric o c out h
    cases hm : metric_map.lookup metric with
    | none => simp [judge, hm] at h
    | some pn =>
      rw [judge_eq prompts client metric o c pn hm] at h
      cases hsys : get_prompt prompts pn "system"
          [("selected_text", .str o), ("model_response", .str c)] with
      | error e2 => rw [hsys] at h; exact Except.noConfusion h
      | ok sp =>
        rw [hsys] at h
        cases husr : get_prompt prompts pn "user"
            [("selected_text", .str o), ("model_response", .str c)] with
        | error e2 => rw [husr] at h; exact Except.noConfusion h
        | ok up =>
          rw [husr] at h
          dsimp only at h
          have hres : (send_prompt client up sp).result = none := by
            simp [send_prompt, _call_api, hfail]
          rw [hres] at h
          have hout := Except.ok.inj h
          rw [← hout]
  · intro prompts metric o c je h
    cases hm : metric_map.lookup metric with
    | none =>
      refine Or.inl ?_
      simp [judge, hm] at h
      exact h.symm
    | some pn =>
      rw [judge_eq prompts client metric o c pn hm] at h
      refine Or.inr ?_
      cases hsys : get_prompt prompts pn "system"
          [("selected_text", .str o), ("model_response", .str c)] with
      | error e2 =>
        rw [hsys] at h
        exact ⟨pn, e2, rfl, (Except.error.inj h).symm, Or.inl hsys⟩
      | ok sp =>
        rw [hsys] at h
        cases husr : get_prompt prompts pn "user"
            [("selected_text", .str o), ("model_response", .str c)] with
        | error e2 =>
          rw [husr] at h
          exact ⟨pn, e2, rfl, (Except.error.inj h).symm, Or.inr husr⟩
        | ok up =>
          rw [husr] at h
          dsimp only at h
          cases hres : (send_prompt client up sp).result with
          | none => rw [hres] at h; exact Except.noConfusion h
          | some raw =>
            rw [hres] at h
            dsimp only at h
            cases hj : json_loads raw with
            | none => rw [hj] at h; exact Except.noConfusion h
            | some v => rw [hj] at h; exact Except.noConfusion h

theorem C1_witness :
    _call_api (fun _ => .error .timeout) [⟨"user", "hello"⟩] =
      ⟨none, ["API Error: " ++ ApiError.timeout.msg], [[⟨"user", "hello"⟩]]⟩ :=
  (C1_exchange_failure_absorbed (fun _ => .error .timeout) .timeout
    (fun _ => rfl)).1 [⟨"user", "hello"⟩]

/-- C3: for a supported metric with resolvable templates, `judge` interprets
the model's text by attempting a JSON parse: a text that parses (such as the
rating-and-explanation record of the example, whose parse has `rating` 4) is
returned as the parsed record; a text that does not parse is returned
unchanged as raw text; a failed exchange yields the absent value. -/
theorem C3_judge_interpretation (prompts : PromptSet) (client : Model)
    (metric o c pn sp up : String)
    (hm : metric_map.lookup metric = some pn)
    (hs : get_prompt prompts pn "system"
        [("selected_text", .str o), ("model_response", .str c)] = .ok sp)
    (hu : get_prompt prompts pn "user"
        [("selected_text", .str o), ("model_response", .str c)] = .ok up) :
    (∀ raw v, client [⟨"system", sp⟩, ⟨"user", up⟩] = .ok raw →
      json_loads raw = some v →
      judge prompts client metric o c =
        .ok ⟨.parsed v, [], [[⟨"system", sp⟩, ⟨"user", up⟩]]⟩) ∧
    (∀ raw, client [⟨"system", sp⟩, ⟨"user", up⟩] = .ok raw →
      json_loads raw = none →
      judge prompts client metric o c =
        .ok ⟨.raw raw, [], [[⟨"system", sp⟩, ⟨"user", up⟩]]⟩) ∧
    (∀ e2, client [⟨"system", sp⟩, ⟨"user", up⟩] = .error e2 →
      judge prompts client metric o c =
        .ok ⟨.absent, ["API Error: " ++ e2.msg], [[⟨"system", sp⟩, ⟨"user", up⟩]]⟩) ∧
    json_loads "\x7b\"rating\": 4, \"explanation\": \"Mostly faithful.\"\x7d" =
      some (.obj [("rating", .num 4), ("explanation", .str "Mostly faithful.")]) := by
  refine ⟨?_, ?_, ?_, rfl⟩
  · intro raw v hr hj
    rw [judge_eq prompts client metric o c pn hm, hs, hu]
    simp [send_prompt, _call_api, hr, hj]
  · intro raw hr hj
    rw [judge_eq prompts client metric o c pn hm, hs, hu]
    simp [send_prompt, _call_api, hr, hj]
  · intro e2 hr
    rw [judge_eq prompts client metric o c pn hm, hs, hu]
    simp [send_prompt, _call_api, hr]

theorem C3_witness :
    judge samplePrompts
      (fun _ => .ok "\x7b\"rating\": 4, \"explanation\": \"Mostly faithful.\"\x7d")
      "faithfulness" "orig" "edit" =
      .ok ⟨.parsed (.obj [("rating", .num 4), ("explanation", .str "Mostly faithful.")]),
        [], [[⟨"system", "You judge faithfulness."⟩,
              ⟨"user", "Original: orig Edited: edit"⟩]]⟩ :=
  (C3_judge_interpretation samplePrompts
    (fun _ => .ok "\x7b\"rating\": 4, \"explanation\": \"Mostly faithful.\"\x7d")
    "faithfulness" "orig" "edit" "faithfulness_judge"
    "You judge faithfulness." "Original: orig Edited: edit"
    rfl rfl rfl).1
    "\x7b\"rating\": 4, \"explanation\": \"Mostly faithful.\"\x7d"
    (.obj [("rating", .num 4), ("explanation", .str "Mostly faithful.")])
    rfl rfl

/-- C9: `judge` does not validate the shape of a successfully parsed model
response: any text that parses as JSON is returned as the parsed value even
when it is not a record with rating and explanation fields — a bare number
such as `4` parses to the number 4 and a JSON list parses to a list — and the
raw-text fallback is never taken for such a text. -/
theorem C9_no_shape_validation (prompts : PromptSet) (client : Model)
    (metric o c pn sp up raw : String) (v : Json)
    (hm : metric_map.lookup metric = some pn)
    (hs : get_prompt prompts pn "system"
        [("selected_text", .str o), ("model_response", .str c)] = .ok sp)
    (hu : get_prompt prompts pn "user"
        [("selected_text", .str o), ("model_response", .str c)] = .ok up)
    (hr : client [⟨"system", sp⟩, ⟨"user", up⟩] = .ok raw)
    (hj : json_loads raw = some v) :
    judge prompts client metric o c =
      .ok ⟨.parsed v, [], [[⟨"system", sp⟩, ⟨"user", up⟩]]⟩ ∧
    json_loads "4" = some (.num 4) ∧
    json_loads "[1, 2]" = some (.arr [.num 1, .num 2]) := by
  refine ⟨?_, rfl, rfl⟩
  rw [judge_eq prompts client metric o c pn hm, hs, hu]
  simp [send_prompt, _call_api, hr, hj]

theorem C9_witness :
    judge samplePrompts (fun _ => .ok "4") "conciseness" "orig" "edit" =
      .ok ⟨.parsed (.num 4), [],
        [[⟨"system", "You judge conciseness."⟩,
          ⟨"user", "Original: orig Edited: edit"⟩]]⟩ ∧
    json_loads "4" = some (.num 4) ∧
    json_loads "[1, 2]" = some (.arr [.num 1, .num 2]) :=
  C9_no_shape_validation samplePrompts (fun _ => .ok "4")
    "conciseness" "orig" "edit" "conciseness_judge"
    "You judge conciseness." "Original: orig Edited: edit" "4" (.num 4)
    rfl rfl rfl rfl rfl

/-- C8: the caller-supplied tone value is substituted verbatim into the
rendered user template's tone placeholder — an arbitrary tone string, in or
out of the suggested set, appears literally in the rendered prompt, with no
validation of its content. -/
theorem C8_tone_passthrough (prompts : PromptSet)
    (text tone : String) (entry : List (String × Template)) (tu : Template)
    (hn : prompts.lookup "tone" = some entry)
    (hu : entry.lookup "user" = some tu)
    (hhole : Frag.hole "tone" ∈ tu)
    (hcov : ∀ n ∈ Template.holes tu,
      ((genArgs "tone" text (some tone)).lookup n).isSome) :
    ∃ pre post,
      get_prompt prompts "tone" "user" (genArgs "tone" text (some tone)) =
        .ok (pre ++ tone ++ post) := by
  obtain ⟨pre, post, hd⟩ :=
    renderFull_decomp tu (genArgs "tone" text (some tone)) "tone" hhole
  have hlk : (genArgs "tone" text (some tone)).lookup "tone" = some (.str tone) := by
    simp [genArgs, pyOfOption, List.lookup]
  rw [hlk] at hd
  refine ⟨pre, post, ?_⟩
  simp only [get_prompt, hn, hu, formatTemplate_ok tu (genArgs "tone" text (some tone)) hcov, hd]
  rfl

theorem C8_witness :
    ∃ pre post,
      get_prompt samplePrompts "tone" "user"
        (genArgs "tone" "Please send the report." (some "friendly")) =
        .ok (pre ++ "friendly" ++ post) :=
  C8_tone_passthrough samplePrompts "Please send the report." "friendly"
    _ _ rfl rfl (by decide) (by decide)

/-- C10: calling `generate` with the tone action and no tone supplied signals
no error: the omitted value's string conversion, the literal text `None`, is
substituted for the tone placeholder of the system and the user template, and
the exchange proceeds normally (one dispatched call whose outcome is returned
as usual). -/
theorem C10_tone_default_none (prompts : PromptSet) (client : Model)
    (text : String) (entry : List (String × Template)) (ts tu : Template)
    (hn : prompts.lookup "tone" = some entry)
    (hsys : entry.lookup "system" = some ts)
    (husr : entry.lookup "user" = some tu)
    (hcs : ∀ n ∈ Template.holes ts, ((genArgs "tone" text none).lookup n).isSome)
    (hcu : ∀ n ∈ Template.holes tu, ((genArgs "tone" text none).lookup n).isSome) :
    generate prompts client "tone" text none =
      .ok (send_prompt client (renderFull tu (genArgs "tone" text none))
            (renderFull ts (genArgs "tone" text none))) ∧
    (send_prompt client (renderFull tu (genArgs "tone" text none))
        (renderFull ts (genArgs "tone" text none))).calls.length = 1 ∧
    (Frag.hole "tone" ∈ ts → ∃ pre post,
      renderFull ts (genArgs "tone" text none) = pre ++ "None" ++ post) ∧
    (Frag.hole "tone" ∈ tu → ∃ pre post,
      renderFull tu (genArgs "tone" text none) = pre ++ "None" ++ post) := by
  have hlk : (genArgs "tone" text none).lookup "tone" = some .pyNone := by
    simp [genArgs, pyOfOption, List.lookup]
  refine ⟨?_, ?_, ?_, ?_⟩
  · rw [generate_eq prompts client "tone" text none (Or.inr (Or.inr rfl))]
    simp only [get_prompt, hn, hsys, husr,
      formatTemplate_ok ts (genArgs "tone" text none) hcs,
      formatTemplate_ok tu (genArgs "tone" text none) hcu]
  · cases hc : client [⟨"system", renderFull ts (genArgs "tone" text none)⟩,
        ⟨"user", renderFull tu (genArgs "tone" text none)⟩] with
    | ok reply => simp [send_prompt, _call_api, hc]
    | error e2 => simp [send_prompt, _call_api, hc]
  · intro hhole
    obtain ⟨pre, post, hd⟩ := renderFull_decomp ts (genArgs "tone" text none) "tone" hhole
    rw [hlk] at hd
    exact ⟨pre, post, hd⟩
  · intro hhole
    obtain ⟨pre, post, hd⟩ := renderFull_decomp tu (genArgs "tone" text none) "tone" hhole
    rw [hlk] at hd
    exact ⟨pre, post, hd⟩

theorem C10_witness :
    generate samplePrompts (fun _ => .ok "rewritten") "tone" "Hello" none =
      .ok (send_prompt (fun _ => .ok "rewritten")
        (renderFull [Frag.lit "Rewrite this email: ", Frag.hole "selected_text",
                     Frag.lit " Use a ", Frag.hole "tone", Frag.lit " tone."]
          (genArgs "tone" "Hello" none))
        (renderFull [Frag.lit "You rewrite emails in a ", Frag.hole "tone", Frag.lit " tone."]
          (genArgs "tone" "Hello" none))) ∧
    (∃ pre post,
      renderFull [Frag.lit "You rewrite emails in a ", Frag.hole "tone", Frag.lit " tone."]
        (genArgs "tone" "Hello" none) = pre ++ "None" ++ post) ∧
    (∃ pre post,
      renderFull [Frag.lit "Rewrite this email: ", Frag.hole "selected_text",
                  Frag.lit " Use a ", Frag.hole "tone", Frag.lit " tone."]
        (genArgs "tone" "Hello" none) = pre ++ "None" ++ post) := by
  have h := C10_tone_default_none samplePrompts (fun _ => .ok "rewritten") "Hello"
    _ _ _ rfl rfl rfl (by decide) (by decide)
  exact ⟨h.1, h.2.2.1 (by decide), h.2.2.2 (by decide)⟩

/-- C7: the claim fails on the code.  `GenerateEmail.__init__` passes the two
environment values straight to the SDK constructor, which treats only the
missing access credential as fatal; a missing endpoint silently falls back to
the default public base url and yields a constructed instance, although the
constructor's own docstring promises a `ValueError` when either value is
unset.  Both evaluations below are concrete: construction succeeds with the
endpoint absent, and fails only when the credential is absent. -/
theorem C7_construction_behaviour :
    GenerateEmail_init [("OPENAI_API_KEY", "secret")] "gpt-4.1" =
      .ok ⟨⟨defaultBaseUrl, "secret"⟩, "gpt-4.1"⟩ ∧
    GenerateEmail_init [("OPENAI_API_BASE", "https://example.openai.azure.com/v1")]
        "gpt-4.1" =
      .error "The api_key client option must be set" :=
  ⟨rfl, rfl⟩

end EmailGen
